import Mathlib

/-!
Shallow embedding of the DayflowGemma timeline-construction pipeline
(`process_videos.py`, `activity_card_merger.py`, `process_dummy_observations.py`).

Modelling conventions:
* The inference client (`VideoProcessor._call_ollama`) is a black box; a run of
  the pipeline is parameterised by an oracle `Nat → Except String String`
  giving, for the k-th call issued, either a raised transport error or the
  returned response text.  An index counter is threaded through all embedded
  functions, so "number of inference calls performed" is observable.
* Python's `json.loads` (an external library call) is an abstract parameter
  `String → Option Json`; `none` models `json.JSONDecodeError`.  JSON numbers
  are restricted to integers (no claim involves fractional values).
* `datetime.fromtimestamp(..).strftime("%-I:%M %p")` (local wall-clock
  rendering) is an abstract parameter `fmt : Int → String`.
* Unix timestamps and durations are modelled as integral seconds.
* Python exceptions are `Except String`, carrying the message text; code that
  catches `Exception` matches on `.error`.
* Prompt text is not reconstructed: the oracle abstracts the client, which is
  the only consumer of prompts, and no claim mentions prompt contents.
* Dataclass fields that Python fills from parsed JSON (card titles, etc.) are
  `Json` values, since the source never validates their runtime type.
* `str.lower` is modelled on the ASCII range, which covers every configured
  distraction keyword.
-/

/-- JSON values as produced by `json.loads`, numbers restricted to integers. -/
inductive Json where
  | null
  | bool (b : Bool)
  | num (n : Int)
  | str (s : String)
  | arr (elems : List Json)
  | obj (fields : List (String × Json))
deriving Repr

mutual
/-- Structural equality of JSON values (Python `==` on parsed JSON trees). -/
def jsonBeq : Json → Json → Bool
  | .null, .null => true
  | .bool a, .bool b => a == b
  | .num a, .num b => a == b
  | .str a, .str b => a == b
  | .arr xs, .arr ys => jsonListBeq xs ys
  | .obj xs, .obj ys => jsonFieldsBeq xs ys
  | _, _ => false
def jsonListBeq : List Json → List Json → Bool
  | [], [] => true
  | x :: xs, y :: ys => jsonBeq x y && jsonListBeq xs ys
  | _, _ => false
def jsonFieldsBeq : List (String × Json) → List (String × Json) → Bool
  | [], [] => true
  | (k, v) :: xs, (k2, v2) :: ys => k == k2 && jsonBeq v v2 && jsonFieldsBeq xs ys
  | _, _ => false
end

mutual
theorem jsonBeq_refl : (j : Json) → jsonBeq j j = true
  | .null => rfl
  | .bool b => by simp [jsonBeq]
  | .num n => by simp [jsonBeq]
  | .str s => by simp [jsonBeq]
  | .arr xs => by simp [jsonBeq, jsonListBeq_refl xs]
  | .obj xs => by simp [jsonBeq, jsonFieldsBeq_refl xs]
theorem jsonListBeq_refl : (xs : List Json) → jsonListBeq xs xs = true
  | [] => rfl
  | x :: xs => by simp [jsonListBeq, jsonBeq_refl x, jsonListBeq_refl xs]
theorem jsonFieldsBeq_refl : (xs : List (String × Json)) → jsonFieldsBeq xs xs = true
  | [] => rfl
  | (k, v) :: xs => by simp [jsonFieldsBeq, jsonBeq_refl v, jsonFieldsBeq_refl xs]
end

/-- The inference-client boundary: result of the k-th `_call_ollama` call. -/
abbrev Oracle := Nat → Except String String

/-- Abstract `json.loads`; `none` is `json.JSONDecodeError`. -/
abbrev JLoads := String → Option Json

/- ### Python string / value primitives used by the source -/

/-- ASCII `str.lower` on one character. -/
def lowerChar (c : Char) : Char :=
  if 'A' ≤ c && c ≤ 'Z' then Char.ofNat (c.toNat + 32) else c

/-- `str.lower` (modelled on the ASCII range). -/
def pyLower (s : String) : String := String.mk (s.toList.map lowerChar)

def infixAux (p : List Char) : List Char → Bool
  | [] => p.isEmpty
  | c :: rest => List.isPrefixOf p (c :: rest) || infixAux p rest

/-- Python substring containment: `pat in s`. -/
def strContains (s pat : String) : Bool := infixAux pat.toList s.toList

/-- `str.strip()` (whitespace at both ends). -/
def pyStrip (s : String) : String :=
  String.mk (((s.toList.dropWhile Char.isWhitespace).reverse.dropWhile
    Char.isWhitespace).reverse)

/-- `str.find(c)`: index of first occurrence, `-1` if absent. -/
def pyFindChar (s : String) (c : Char) : Int :=
  match s.toList.findIdx? (fun x => x == c) with
  | some n => Int.ofNat n
  | none => -1

/-- `str.rfind(c)`: index of last occurrence, `-1` if absent. -/
def pyRFindChar (s : String) (c : Char) : Int :=
  match s.toList.reverse.findIdx? (fun x => x == c) with
  | some n => Int.ofNat (s.toList.length - 1 - n)
  | none => -1

/-- `s[a:b]` for non-negative indices. -/
def pySliceN (s : String) (a b : Nat) : String :=
  String.mk ((s.toList.drop a).take (b - a))

def splitChars (sep : Char) : List Char → List (List Char)
  | [] => [[]]
  | c :: rest =>
    match splitChars sep rest with
    | [] => [[c]]
    | g :: gs => if c == sep then [] :: g :: gs else (c :: g) :: gs

/-- `str.split(":")`: split on every occurrence, keeping empty fields. -/
def pySplitColon (s : String) : List String :=
  (splitChars ':' s.toList).map (fun cs => String.mk cs)

/-- Tail of a valid Python integer literal after its first digit:
digits, with single underscores allowed between digits. -/
def pyIntDigitsTail : List Char → Bool
  | [] => true
  | c :: rest =>
    if c == '_' then
      match rest with
      | [] => false
      | d :: rest2 => d.isDigit && pyIntDigitsTail rest2
    else c.isDigit && pyIntDigitsTail rest

/-- Python `int(s)`: optional surrounding whitespace, optional sign, decimal
digits with optional single underscores between digits; `none` models the
`ValueError` raise. -/
def pyInt (s : String) : Option Int :=
  let cs := ((s.toList.dropWhile Char.isWhitespace).reverse.dropWhile
    Char.isWhitespace).reverse
  let signed : Bool × List Char :=
    match cs with
    | '-' :: rest => (true, rest)
    | '+' :: rest => (false, rest)
    | _ => (false, cs)
  match signed.2 with
  | [] => none
  | d :: rest =>
    if d.isDigit && pyIntDigitsTail rest then
      let n : Nat := ((d :: rest).filter (fun c => c.isDigit)).foldl
        (fun acc c => acc * 10 + (c.toNat - 48)) 0
      some (if signed.1 then -(n : Int) else (n : Int))
    else none

def squoteStr : String := String.mk [Char.ofNat 39]
def lcurlyStr : String := String.mk [Char.ofNat 123]
def rcurlyStr : String := String.mk [Char.ofNat 125]

mutual
/-- Python `repr` of a parsed-JSON value (string escaping not modelled; only
used for f-string interpolation of fallback titles/summaries, which no claim
inspects beyond being a string). -/
def pyRepr : Json → String
  | .null => "None"
  | .bool true => "True"
  | .bool false => "False"
  | .num n => toString n
  | .str s => squoteStr ++ s ++ squoteStr
  | .arr xs => "[" ++ pyReprList xs ++ "]"
  | .obj fs => lcurlyStr ++ pyReprFields fs ++ rcurlyStr
def pyReprList : List Json → String
  | [] => ""
  | [x] => pyRepr x
  | x :: y :: rest => pyRepr x ++ ", " ++ pyReprList (y :: rest)
def pyReprFields : List (String × Json) → String
  | [] => ""
  | [(k, v)] => squoteStr ++ k ++ squoteStr ++ ": " ++ pyRepr v
  | (k, v) :: y :: rest =>
    squoteStr ++ k ++ squoteStr ++ ": " ++ pyRepr v ++ ", " ++ pyReprFields (y :: rest)
end

/-- Python `str()` as used by f-string interpolation. -/
def pyStr : Json → String
  | .str s => s
  | j => pyRepr j

/-- Python truthiness of a parsed-JSON value (`if x:`). -/
def pyTruthy : Json → Bool
  | .null => false
  | .bool b => b
  | .num n => decide (n ≠ 0)
  | .str s => decide (s ≠ "")
  | .arr xs => !xs.isEmpty
  | .obj fs => !fs.isEmpty

/-- `dict.get(key, default)`; raises `AttributeError` on non-dicts. -/
def pyDictGet (j : Json) (key : String) (dflt : Json) : Except String Json :=
  match j with
  | .obj fields =>
    match fields.lookup key with
    | some v => .ok v
    | none => .ok dflt
  | _ => .error "AttributeError: object has no attribute get"

/-- `value[key]` with a string key; raises `KeyError` / `TypeError`. -/
def pySubscript (j : Json) (key : String) : Except String Json :=
  match j with
  | .obj fields =>
    match fields.lookup key with
    | some v => .ok v
    | none => .error ("KeyError: " ++ key)
  | _ => .error "TypeError: value is not subscriptable by string"

/-- `for x in value`: lists yield elements, strings yield one-character
strings, dicts yield their keys; other values raise `TypeError`. -/
def pyIterList (j : Json) : Except String (List Json) :=
  match j with
  | .arr xs => .ok xs
  | .str s => .ok (s.toList.map (fun c => Json.str (String.mk [c])))
  | .obj fs => .ok (fs.map (fun kv => Json.str kv.1))
  | _ => .error "TypeError: value is not iterable"

/- ### Data model (`process_videos.py` dataclasses) -/

/-- `Observation` dataclass: final observation format. -/
structure Observation where
  start_ts : Int
  end_ts : Int
  observation : Json
  metadata : List (String × String)
deriving Repr

/-- `ActivityCard` dataclass.  Fields are `Json` because the source stores
parsed JSON values in them without type checks. -/
structure ActivityCard where
  start_time : Json
  end_time : Json
  category : Json
  title : Json
  summary : Json
deriving Repr

/-- Python `==` on `ActivityCard` (dataclass field-wise equality). -/
def cardBeq (a b : ActivityCard) : Bool :=
  jsonBeq a.start_time b.start_time && jsonBeq a.end_time b.end_time &&
  jsonBeq a.category b.category && jsonBeq a.title b.title &&
  jsonBeq a.summary b.summary

theorem cardBeq_refl (a : ActivityCard) : cardBeq a a = true := by
  simp [cardBeq, jsonBeq_refl]

/-- `OLLAMA_MODEL` constant. -/
def OLLAMA_MODEL : String := "google/gemma-3n-e4b"

/-- Expected JSON shape passed to `_parse_json_from_response`. -/
inductive PyType where
  | list
  | dict
deriving DecidableEq, Repr

def Json.isType : Json → PyType → Bool
  | .arr _, .list => true
  | .obj _, .dict => true
  | _, _ => false

/-- `VideoProcessor._parse_json_from_response`: direct `json.loads` first (a
successful load of the wrong shape raises `ValueError`, which is not caught by
the `except json.JSONDecodeError` and propagates); otherwise scan the stripped
response for an outermost `[..]` (lists only) and then `{..}` pair, wrapping a
recovered object in a singleton list when a list was expected. -/
def parseJsonFromResponse (jl : JLoads) (response : String) (expected : PyType) :
    Except String Json :=
  match jl response with
  | some data =>
    if data.isType expected then .ok data
    else .error "ValueError: response JSON has unexpected shape"
  | none =>
    let r := pyStrip response
    let arrFound : Option Json :=
      if expected = PyType.list then
        let si := pyFindChar r '['
        let ei := pyRFindChar r ']'
        if si ≠ -1 && ei ≠ -1 then jl (pySliceN r si.toNat (ei.toNat + 1))
        else none
      else none
    match arrFound with
    | some data => .ok data
    | none =>
      let si := pyFindChar r (Char.ofNat 123)
      let ei := pyRFindChar r (Char.ofNat 125)
      if si ≠ -1 && ei ≠ -1 then
        match jl (pySliceN r si.toNat (ei.toNat + 1)) with
        | some data =>
          if expected = PyType.list then .ok (Json.arr [data]) else .ok data
        | none => .error ("ValueError: Could not parse JSON from response: " ++ response)
      else .error ("ValueError: Could not parse JSON from response: " ++ response)

/-- `VideoProcessor._parse_timestamp`: `MM:SS` or `HH:MM:SS` to seconds;
anything else raises. -/
def parseTimestamp (timestamp : String) : Except String Int :=
  match pySplitColon timestamp with
  | [a, b] =>
    match pyInt a with
    | none => .error ("ValueError: invalid literal for int: " ++ a)
    | some m =>
      match pyInt b with
      | none => .error ("ValueError: invalid literal for int: " ++ b)
      | some s2 => .ok (m * 60 + s2)
  | [a, b, c] =>
    match pyInt a with
    | none => .error ("ValueError: invalid literal for int: " ++ a)
    | some h =>
      match pyInt b with
      | none => .error ("ValueError: invalid literal for int: " ++ b)
      | some m =>
        match pyInt c with
        | none => .error ("ValueError: invalid literal for int: " ++ c)
        | some s2 => .ok (h * 3600 + m * 60 + s2)
  | _ => .error ("Invalid timestamp format: " ++ timestamp)

/-- `_parse_timestamp` applied to a parsed-JSON segment field: `.split` on a
non-string raises `AttributeError`. -/
def parseTimestampJson : Json → Except String Int
  | .str s => parseTimestamp s
  | _ => .error "AttributeError: value has no attribute split"

/-- The Python `for` loop pattern `for x in items: out.append(f(x))` under
exceptions: results in order, first raise aborts the loop. -/
def exceptMapList {α β : Type} (f : α → Except String β) : List α → Except String (List β)
  | [] => .ok []
  | x :: xs =>
    match f x with
    | .error e => .error e
    | .ok b =>
      match exceptMapList f xs with
      | .error e => .error e
      | .ok bs => .ok (b :: bs)

/- ### Segment Merger (`VideoProcessor._merge_frame_descriptions`) -/

/-- Conversion of one parsed segment into an `Observation` (loop body of
`_merge_frame_descriptions`): subscript accesses and timestamp parses in
source order, each able to raise. -/
def convertSegment (t0 : Int) (seg : Json) : Except String Observation := do
  let stJ ← pySubscript seg "startTimestamp"
  let startSeconds ← parseTimestampJson stJ
  let enJ ← pySubscript seg "endTimestamp"
  let endSeconds ← parseTimestampJson enJ
  let desc ← pySubscript seg "description"
  pure { start_ts := t0 + startSeconds, end_ts := t0 + endSeconds,
         observation := desc, metadata := [("model", OLLAMA_MODEL)] }

/-- The single-observation fallback of `_merge_frame_descriptions`. -/
def mergeFallback (t0 videoDuration : Int) (e : String) : List Observation :=
  [{ start_ts := t0, end_ts := t0 + videoDuration,
     observation := Json.str "Failed to merge frame descriptions",
     metadata := [("error", e)] }]

/-- `VideoProcessor._merge_frame_descriptions`.  `frameDescriptions` feeds only
the prompt (not reconstructed); `t0` is `batch_start_time.timestamp()` and
`videoDuration` the batch duration, in whole seconds.  Any raise inside the
`try` block (transport error, parse failure, malformed segment) is caught and
converted to the single-observation fallback. -/
def mergeFrameDescriptions (o : Oracle) (jl : JLoads) (i : Nat)
    (frameDescriptions : List (Int × String)) (t0 videoDuration : Int) :
    List Observation × Nat :=
  match o i with
  | .error e => (mergeFallback t0 videoDuration e, i + 1)
  | .ok response =>
    match parseJsonFromResponse jl response PyType.list with
    | .error e => (mergeFallback t0 videoDuration e, i + 1)
    | .ok segsJson =>
      match pyIterList segsJson with
      | .error e => (mergeFallback t0 videoDuration e, i + 1)
      | .ok segs =>
        match exceptMapList (convertSegment t0) segs with
        | .error e => (mergeFallback t0 videoDuration e, i + 1)
        | .ok observations => (observations, i + 1)

/- ### Card Generator (`VideoProcessor._generate_activity_cards` and the
context-aware variant monkey-patched in `process_dummy_observations.py`) -/

def dummyObservation : Observation :=
  { start_ts := 0, end_ts := 0, observation := Json.null, metadata := [] }

/-- The fallback card emitted when card generation fails: generic category,
placeholder title/summary, bounds formatted from the first and last
observation of the chunk (identical literals in both generator variants). -/
def fallbackActivityCard (fmt : Int → String) (observations : List Observation) :
    ActivityCard :=
  { start_time := Json.str (fmt ((observations.head?.getD dummyObservation).start_ts)),
    end_time := Json.str (fmt ((observations.getLast?.getD dummyObservation).end_ts)),
    category := Json.str "Work",
    title := Json.str "Activity Session",
    summary := Json.str "User engaged in various activities." }

/-- `VideoProcessor._generate_activity_cards`.  On an empty observation list
every path dereferences `observations[0]` and the `IndexError` propagates
(also out of the `except` handler).  Success keeps the formatted first/last
observation bounds and fixed category "Work"; any caught raise yields the
fallback card with the same bounds. -/
def generateActivityCards (o : Oracle) (jl : JLoads) (fmt : Int → String) (i : Nat)
    (observations : List Observation) : Except String (List ActivityCard × Nat) :=
  match o i with
  | .error _ =>
    match observations with
    | [] => .error "IndexError: list index out of range"
    | _ => .ok ([fallbackActivityCard fmt observations], i + 1)
  | .ok response =>
    match parseJsonFromResponse jl response PyType.dict with
    | .error _ =>
      match observations with
      | [] => .error "IndexError: list index out of range"
      | _ => .ok ([fallbackActivityCard fmt observations], i + 1)
    | .ok result =>
      match observations with
      | [] => .error "IndexError: list index out of range"
      | _ =>
        match pyDictGet result "title" (Json.str "Activity Session") with
        | .error _ => .ok ([fallbackActivityCard fmt observations], i + 1)
        | .ok t =>
          match pyDictGet result "summary"
              (Json.str "User engaged in various activities.") with
          | .error _ => .ok ([fallbackActivityCard fmt observations], i + 1)
          | .ok sm =>
            .ok ([{ start_time :=
                      Json.str (fmt ((observations.head?.getD dummyObservation).start_ts)),
                    end_time :=
                      Json.str (fmt ((observations.getLast?.getD dummyObservation).end_ts)),
                    category := Json.str "Work", title := t, summary := sm }], i + 1)

/-- One card built from a response element in the context-aware generator:
`ActivityCard(start_time=card_data['startTime'], ...)` — the time bounds and
category are copied verbatim from the model response. -/
def buildCardFromData (cd : Json) : Except String ActivityCard := do
  let st ← pySubscript cd "startTime"
  let en ← pySubscript cd "endTime"
  let cat ← pySubscript cd "category"
  let t ← pySubscript cd "title"
  let sm ← pySubscript cd "summary"
  pure { start_time := st, end_time := en, category := cat, title := t, summary := sm }

/-- `_generate_activity_cards_with_context` (the `modified_generate` closure in
`process_dummy_observations.py`).  Context only feeds the prompt.  On success
the cards — including their time bounds — come verbatim from the response; on
any caught raise the fallback card is built from the current chunk's first and
last observations (raising `IndexError` when the chunk is empty). -/
def generateActivityCardsWithContext (o : Oracle) (jl : JLoads) (fmt : Int → String)
    (i : Nat) (observations : List Observation) (ctxObservations : List Observation)
    (ctxCards : List ActivityCard) : Except String (List ActivityCard × Nat) :=
  let fallbackPath : Except String (List ActivityCard × Nat) :=
    match observations with
    | [] => .error "IndexError: list index out of range"
    | _ => .ok ([fallbackActivityCard fmt observations], i + 1)
  match o i with
  | .error _ => fallbackPath
  | .ok response =>
    match parseJsonFromResponse jl response PyType.list with
    | .error _ => fallbackPath
    | .ok cardsData =>
      match pyIterList cardsData with
      | .error _ => fallbackPath
      | .ok items =>
        match exceptMapList buildCardFromData items with
        | .error _ => fallbackPath
        | .ok cards => .ok (cards, i + 1)

/- ### Card Consolidation Engine (`ActivityCardMerger`) -/

/-- The fixed distraction-keyword list of `should_merge_cards`. -/
def distractionKeywords : List String :=
  ["youtube", "instagram", "twitter", "reddit", "facebook",
   "cat video", "dog video", "social media", "took a break",
   "watched", "scrolled", "distracted"]

/-- `(previous_card.title + previous_card.summary + new_card.title +
new_card.summary).lower()` — string concatenation raises `TypeError` (or the
subsequent `.lower()` raises `AttributeError`) unless all four fields are
strings; this happens before the `try` block, so it propagates. -/
def combinedText (p n : ActivityCard) : Except String String :=
  match p.title, p.summary, n.title, n.summary with
  | .str a, .str b, .str c, .str d => .ok (pyLower (a ++ b ++ c ++ d))
  | _, _, _, _ => .error "TypeError: can only concatenate str to str"

/-- `ActivityCardMerger.should_merge_cards`: lexical veto first (no inference
call, index unchanged), then one inference call whose raise or parse failure
defaults the decision to `False`; otherwise the decision is
`result.get('combine', False)` verbatim. -/
def shouldMergeCards (o : Oracle) (jl : JLoads) (i : Nat) (p n : ActivityCard) :
    Except String (Json × Nat) :=
  match combinedText p n with
  | .error e => .error e
  | .ok combined =>
    if distractionKeywords.any (fun k => strContains combined k) then
      .ok (Json.bool false, i)
    else
      match o i with
      | .error _ => .ok (Json.bool false, i + 1)
      | .ok response =>
        match parseJsonFromResponse jl response PyType.dict with
        | .error _ => .ok (Json.bool false, i + 1)
        | .ok result =>
          match pyDictGet result "combine" (Json.bool false) with
          | .error _ => .ok (Json.bool false, i + 1)
          | .ok v => .ok (v, i + 1)

/-- `ActivityCardMerger.merge_two_cards`: one inference call; on success the
fused card keeps `previous_card.start_time`, `new_card.end_time` and
`previous_card.category`, with title/summary from the response (f-string
defaults when keys are absent); on any caught raise the deterministic fallback
keeps the same three fields, the previous title, and concatenated summaries. -/
def mergeTwoCards (o : Oracle) (jl : JLoads) (i : Nat) (p n : ActivityCard) :
    ActivityCard × Nat :=
  let fallback : ActivityCard :=
    { start_time := p.start_time, end_time := n.end_time, category := p.category,
      title := p.title,
      summary := Json.str (pyStr p.summary ++ " Continued with " ++ pyStr n.summary) }
  match o i with
  | .error _ => (fallback, i + 1)
  | .ok response =>
    match parseJsonFromResponse jl response PyType.dict with
    | .error _ => (fallback, i + 1)
    | .ok result =>
      match pyDictGet result "title"
          (Json.str (pyStr p.title ++ " and " ++ pyStr n.title)) with
      | .error _ => (fallback, i + 1)
      | .ok t =>
        match pyDictGet result "summary"
            (Json.str (pyStr p.summary ++ " " ++ pyStr n.summary)) with
        | .error _ => (fallback, i + 1)
        | .ok sm =>
          ({ start_time := p.start_time, end_time := n.end_time,
             category := p.category, title := t, summary := sm }, i + 1)

/- ### Chunk loop with consolidation (`process_with_merging`) -/

/-- Result of committing one newly generated card against the previous card
(lines 191-214 of `activity_card_merger.py`).  `mergedWith` records a fusion
`(P, N, fused)` and `fusedAppendedAsNew` whether the `else` branch appended
the fused card instead of overwriting `final_cards[-1]`. -/
structure CommitResult where
  postCards : List ActivityCard
  postPrev : Option ActivityCard
  idx : Nat
  mergedWith : Option (ActivityCard × ActivityCard × ActivityCard)
  fusedAppendedAsNew : Bool

def commitNewCard (o : Oracle) (jl : JLoads) (i : Nat) (finalCards : List ActivityCard)
    (previous : Option ActivityCard) (newCard : ActivityCard) :
    Except String CommitResult :=
  match previous with
  | none =>
    .ok { postCards := finalCards ++ [newCard], postPrev := some newCard,
          idx := i, mergedWith := none, fusedAppendedAsNew := false }
  | some prev =>
    match shouldMergeCards o jl i prev newCard with
    | .error e => .error e
    | .ok (decision, i1) =>
      if pyTruthy decision then
        let fusion := mergeTwoCards o jl i1 prev newCard
        match finalCards.getLast? with
        | some lastCard =>
          if cardBeq lastCard prev then
            .ok { postCards := finalCards.dropLast ++ [fusion.1],
                  postPrev := some fusion.1, idx := fusion.2,
                  mergedWith := some (prev, newCard, fusion.1),
                  fusedAppendedAsNew := false }
          else
            .ok { postCards := finalCards ++ [fusion.1], postPrev := some fusion.1,
                  idx := fusion.2, mergedWith := some (prev, newCard, fusion.1),
                  fusedAppendedAsNew := true }
        | none =>
          .ok { postCards := finalCards ++ [fusion.1], postPrev := some fusion.1,
                idx := fusion.2, mergedWith := some (prev, newCard, fusion.1),
                fusedAppendedAsNew := true }
      else
        .ok { postCards := finalCards ++ [newCard], postPrev := some newCard,
              idx := i1, mergedWith := none, fusedAppendedAsNew := false }

/-- Mutable loop state of `process_with_merging`. -/
structure LoopState where
  finalCards : List ActivityCard
  previous : Option ActivityCard
  idx : Nat

/-- Ghost trace record of one completed loop iteration (instrumentation only;
not part of the source state). -/
structure IterRecord where
  window : Int
  selected : List Observation
  producedCard : Bool
  preCards : List ActivityCard
  postCards : List ActivityCard
  postPrev : Option ActivityCard
  mergedWith : Option (ActivityCard × ActivityCard × ActivityCard)
  fusedAppendedAsNew : Bool

/-- One iteration of the `while chunk_start < end_time` loop body: select the
observations intersecting the 15-minute window, skip if none, otherwise
generate a card and commit it against the previous card. -/
def iterBody (o : Oracle) (jl : JLoads) (fmt : Int → String)
    (allObservations : List Observation) (chunkStart : Int) (s : LoopState) :
    Except String (IterRecord × LoopState) :=
  let chunkEnd := chunkStart + 15 * 60
  let chunkObservations := allObservations.filter
    (fun ob => decide (ob.start_ts < chunkEnd) && decide (ob.end_ts > chunkStart))
  if chunkObservations.isEmpty then
    .ok ({ window := chunkStart, selected := chunkObservations, producedCard := false,
           preCards := s.finalCards, postCards := s.finalCards, postPrev := s.previous,
           mergedWith := none, fusedAppendedAsNew := false }, s)
  else
    match generateActivityCards o jl fmt s.idx chunkObservations with
    | .error e => .error e
    | .ok (cards, i1) =>
      match cards with
      | [] =>
        .ok ({ window := chunkStart, selected := chunkObservations,
               producedCard := false, preCards := s.finalCards,
               postCards := s.finalCards, postPrev := s.previous,
               mergedWith := none, fusedAppendedAsNew := false },
             { finalCards := s.finalCards, previous := s.previous, idx := i1 })
      | newCard :: _ =>
        match commitNewCard o jl i1 s.finalCards s.previous newCard with
        | .error e => .error e
        | .ok cr =>
          .ok ({ window := chunkStart, selected := chunkObservations,
                 producedCard := true, preCards := s.finalCards,
                 postCards := cr.postCards, postPrev := cr.postPrev,
                 mergedWith := cr.mergedWith,
                 fusedAppendedAsNew := cr.fusedAppendedAsNew },
               { finalCards := cr.postCards, previous := cr.postPrev, idx := cr.idx })

/-- The chunk loop.  The source iterates `while chunk_start < end_time`,
advancing by 900 seconds; `fuel` is a structural bound on the number of
iterations (the guard is still checked each step, so any sufficiently large
fuel reproduces the `while` loop exactly).  Returns the trace of completed
iterations and the final state, or the first uncaught raise. -/
def runChunksN (o : Oracle) (jl : JLoads) (fmt : Int → String)
    (allObservations : List Observation) (endTime : Int) :
    Nat → Int → LoopState → List IterRecord × Except String LoopState
  | 0, _, s => ([], .ok s)
  | fuel + 1, chunkStart, s =>
    if chunkStart < endTime then
      match iterBody o jl fmt allObservations chunkStart s with
      | .error e => ([], .error e)
      | .ok (rec, s2) =>
        let rest := runChunksN o jl fmt allObservations endTime fuel
          (chunkStart + 15 * 60) s2
        (rec :: rest.1, rest.2)
    else ([], .ok s)

/-- Stable insertion into a list sorted by `start_ts` (keeps an inserted
element after existing equal keys). -/
def insertByStart (x : Observation) : List Observation → List Observation
  | [] => [x]
  | y :: ys =>
    if y.start_ts ≤ x.start_ts then y :: insertByStart x ys else x :: y :: ys

/-- `all_observations.sort(key=lambda x: x['start_ts'])`: a stable sort by
`start_ts`. -/
def sortObs (l : List Observation) : List Observation :=
  l.foldl (fun acc x => insertByStart x acc) []

/-- `process_with_merging`: sort, then run the chunk loop from the first
observation's start to the last observation's end.  An iteration advances 900
seconds, so `(endTime - startTime).toNat` bounds the iteration count. -/
def processWithMerging (o : Oracle) (jl : JLoads) (fmt : Int → String)
    (allObservations : List Observation) : Except String (List ActivityCard) :=
  let sorted := sortObs allObservations
  match sorted.head?, sorted.getLast? with
  | some firstObs, some lastObs =>
    let startTime := firstObs.start_ts
    let endTime := lastObs.end_ts
    match (runChunksN o jl fmt sorted endTime ((endTime - startTime).toNat)
        startTime { finalCards := [], previous := none, idx := 0 }).2 with
    | .error e => .error e
    | .ok s => .ok s.finalCards
  | _, _ => .error "IndexError: list index out of range"

/- ### Generic helper lemmas -/

theorem exceptMapList_error_of_mem {α β : Type} (f : α → Except String β) :
    ∀ (l : List α), (∃ x ∈ l, ∃ e, f x = .error e) →
      ∃ e, exceptMapList f l = .error e := by
  intro l hx
  induction l with
  | nil => rcases hx with ⟨x, hx, _⟩; cases hx
  | cons y ys ih =>
    rcases hx with ⟨x, hxmem, e, hfe⟩
    rcases List.mem_cons.mp hxmem with rfl | hmem
    · exact ⟨e, by simp [exceptMapList, hfe]⟩
    · cases hfy : f y with
      | error e2 => exact ⟨e2, by simp [exceptMapList, hfy]⟩
      | ok b =>
        obtain ⟨e3, h3⟩ := ih ⟨x, hmem, e, hfe⟩
        exact ⟨e3, by simp [exceptMapList, hfy, h3]⟩

theorem exceptMapList_ok_forall2 {α β : Type} (f : α → Except String β) :
    ∀ (l : List α) (l2 : List β), exceptMapList f l = .ok l2 →
      List.Forall₂ (fun a b => f a = .ok b) l l2 := by
  intro l
  induction l with
  | nil =>
    intro l2 h
    simp [exceptMapList] at h
    simp [← h]
  | cons y ys ih =>
    intro l2 h
    unfold exceptMapList at h
    cases hfy : f y with
    | error e => rw [hfy] at h; cases h
    | ok b =>
      rw [hfy] at h
      cases hys : exceptMapList f ys with
      | error e => rw [hys] at h; cases h
      | ok bs =>
        rw [hys] at h
        cases h
        exact List.Forall₂.cons hfy (ih bs hys)

/- ### Claim theorems -/

/-- Claim C1: for every pair of activity cards whose lowercase concatenated
title+summary text contains one of the fixed distraction keywords,
`should_merge_cards` returns `False` without issuing any inference call (the
returned call index equals the input index, so the oracle is never
consulted). -/
theorem shouldMergeCards_keyword_veto (o : Oracle) (jl : JLoads) (i : Nat)
    (p n : ActivityCard) (a b c d : String)
    (hpt : p.title = Json.str a) (hps : p.summary = Json.str b)
    (hnt : n.title = Json.str c) (hns : n.summary = Json.str d)
    (hkey : ∃ k ∈ distractionKeywords, strContains (pyLower (a ++ b ++ c ++ d)) k = true) :
    shouldMergeCards o jl i p n = .ok (Json.bool false, i) := by
  obtain ⟨k, hk, hck⟩ := hkey
  have hany : distractionKeywords.any
      (fun k => strContains (pyLower (a ++ b ++ c ++ d)) k) = true :=
    List.any_eq_true.mpr ⟨k, hk, hck⟩
  unfold shouldMergeCards combinedText
  rw [hpt, hps, hnt, hns]
  simp [hany]

/-- Witness for C1 at a concrete pair containing "youtube" (and "watched"). -/
theorem shouldMergeCards_keyword_veto_inst :
    shouldMergeCards (fun _ => .error "no call expected") (fun _ => none) 5
      { start_time := Json.str "9:00 AM", end_time := Json.str "9:15 AM",
        category := Json.str "Work", title := Json.str "Watched YouTube videos",
        summary := Json.str "Browsing." }
      { start_time := Json.str "9:15 AM", end_time := Json.str "9:30 AM",
        category := Json.str "Work", title := Json.str "Coding",
        summary := Json.str "Worked on app." } = .ok (Json.bool false, 5) :=
  shouldMergeCards_keyword_veto _ _ _ _ _
    "Watched YouTube videos" "Browsing." "Coding" "Worked on app."
    rfl rfl rfl rfl ⟨"youtube", by decide, by decide⟩

/-- Claim C2: whatever the inference client does (raise, malformed response,
or any successful response), the card returned by `merge_two_cards` keeps the
previous card's start time and category and the new card's end time. -/
theorem mergeTwoCards_time_bounds (o : Oracle) (jl : JLoads) (i : Nat)
    (p n : ActivityCard) :
    (mergeTwoCards o jl i p n).1.start_time = p.start_time ∧
    (mergeTwoCards o jl i p n).1.end_time = n.end_time ∧
    (mergeTwoCards o jl i p n).1.category = p.category := by
  unfold mergeTwoCards
  dsimp only
  repeat' split
  all_goals exact ⟨rfl, rfl, rfl⟩

/-- Claim C9: `_parse_timestamp` maps a two-field `m:sec` string to
`m*60 + sec`, a three-field `h:m:sec` string to `h*3600 + m*60 + sec`, and
raises on every other string; inside the Segment Merger such a raise (via the
segment-conversion step) is what triggers the whole-batch fallback. -/
theorem parseTimestamp_spec :
    (∀ s a b m sec, pySplitColon s = [a, b] → pyInt a = some m →
       pyInt b = some sec → parseTimestamp s = .ok (m * 60 + sec)) ∧
    (∀ s a b c h m sec, pySplitColon s = [a, b, c] → pyInt a = some h →
       pyInt b = some m → pyInt c = some sec →
       parseTimestamp s = .ok (h * 3600 + m * 60 + sec)) ∧
    (∀ s, (∀ a b m sec,
             ¬(pySplitColon s = [a, b] ∧ pyInt a = some m ∧ pyInt b = some sec)) →
          (∀ a b c h m sec,
             ¬(pySplitColon s = [a, b, c] ∧ pyInt a = some h ∧ pyInt b = some m ∧
               pyInt c = some sec)) →
          ∃ e, parseTimestamp s = .error e) ∧
    (∀ t0 seg ts, pySubscript seg "startTimestamp" = .ok (Json.str ts) →
       (∃ e, parseTimestamp ts = .error e) →
       ∃ e2, convertSegment t0 seg = .error e2) := by
  refine ⟨?_, ?_, ?_, ?_⟩
  · intro s a b m sec hsp ha hb
    simp [parseTimestamp, hsp, ha, hb]
  · intro s a b c h m sec hsp ha hb hc
    simp [parseTimestamp, hsp, ha, hb, hc]
  · intro s h2 h3
    unfold parseTimestamp
    cases hsp : pySplitColon s with
    | nil => exact ⟨_, rfl⟩
    | cons a t1 =>
      cases t1 with
      | nil => exact ⟨_, rfl⟩
      | cons b t2 =>
        cases t2 with
        | nil =>
          dsimp only
          cases hia : pyInt a with
          | none => exact ⟨_, rfl⟩
          | some m =>
            dsimp only
            cases hib : pyInt b with
            | none => exact ⟨_, rfl⟩
            | some sec => exact absurd ⟨hsp, hia, hib⟩ (h2 a b m sec)
        | cons c t3 =>
          cases t3 with
          | nil =>
            dsimp only
            cases hia : pyInt a with
            | none => exact ⟨_, rfl⟩
            | some hh =>
              dsimp only
              cases hib : pyInt b with
              | none => exact ⟨_, rfl⟩
              | some m =>
                dsimp only
                cases hic : pyInt c with
                | none => exact ⟨_, rfl⟩
                | some sec => exact absurd ⟨hsp, hia, hib, hic⟩ (h3 a b c hh m sec)
          | cons d t4 => exact ⟨_, rfl⟩
  · intro t0 seg ts hsub ⟨e, he⟩
    refine ⟨e, ?_⟩
    simp [convertSegment, hsub, parseTimestampJson, he, Bind.bind, Except.bind]

/-- Witness for C9 on the two-field shape `03:05`. -/
theorem parseTimestamp_spec_inst : parseTimestamp "03:05" = .ok (3 * 60 + 5) :=
  parseTimestamp_spec.1 "03:05" "03" "05" 3 5 rfl rfl rfl

/-- Claim C3: whenever the Segment Merger's inference call raises, or its
response fails to parse as a JSON list, or any parsed segment is malformed
(missing keys, non-MM:SS/HH:MM:SS timestamps, ...), `_merge_frame_descriptions`
returns — without propagating the exception — exactly one Observation spanning
`[t0, t0 + d]` with the sentinel description and the error text in its
metadata. -/
theorem mergeFrameDescriptions_failure_fallback (o : Oracle) (jl : JLoads) (i : Nat)
    (fds : List (Int × String)) (t0 d : Int) :
    (∀ e, o i = .error e →
       mergeFrameDescriptions o jl i fds t0 d =
         ([{ start_ts := t0, end_ts := t0 + d,
             observation := Json.str "Failed to merge frame descriptions",
             metadata := [("error", e)] }], i + 1)) ∧
    (∀ r e, o i = .ok r → parseJsonFromResponse jl r PyType.list = .error e →
       mergeFrameDescriptions o jl i fds t0 d =
         ([{ start_ts := t0, end_ts := t0 + d,
             observation := Json.str "Failed to merge frame descriptions",
             metadata := [("error", e)] }], i + 1)) ∧
    (∀ r segsJson segs, o i = .ok r →
       parseJsonFromResponse jl r PyType.list = .ok segsJson →
       pyIterList segsJson = .ok segs →
       (∃ seg ∈ segs, ∃ e, convertSegment t0 seg = .error e) →
       ∃ e2, mergeFrameDescriptions o jl i fds t0 d =
         ([{ start_ts := t0, end_ts := t0 + d,
             observation := Json.str "Failed to merge frame descriptions",
             metadata := [("error", e2)] }], i + 1)) := by
  refine ⟨?_, ?_, ?_⟩
  · intro e he
    simp [mergeFrameDescriptions, he, mergeFallback]
  · intro r e hr hp
    simp [mergeFrameDescriptions, hr, hp, mergeFallback]
  · intro r segsJson segs hr hp hiter hbad
    obtain ⟨e3, h3⟩ := exceptMapList_error_of_mem (convertSegment t0) segs hbad
    exact ⟨e3, by simp [mergeFrameDescriptions, hr, hp, hiter, h3, mergeFallback]⟩

/-- Witness for C3: a raising client on a concrete batch. -/
theorem mergeFrameDescriptions_failure_fallback_inst :
    mergeFrameDescriptions (fun _ => .error "TransportError") (fun _ => none) 0
        [(0, "caption a"), (30, "caption b")] 1000 60 =
      ([{ start_ts := 1000, end_ts := 1000 + 60,
          observation := Json.str "Failed to merge frame descriptions",
          metadata := [("error", "TransportError")] }], 0 + 1) :=
  (mergeFrameDescriptions_failure_fallback (fun _ => .error "TransportError")
    (fun _ => none) 0 [(0, "caption a"), (30, "caption b")] 1000 60).1
    "TransportError" rfl

/-- Claim C4: for any non-empty observation list, if the card-generation
inference call raises or its response fails to parse as a JSON object,
`_generate_activity_cards` returns (without raising) exactly the fallback
card: category "Work", title "Activity Session", summary "User engaged in
various activities.", bounds formatted from the first/last observation. -/
theorem generateActivityCards_failure_fallback (o : Oracle) (jl : JLoads)
    (fmt : Int → String) (i : Nat) (observations : List Observation)
    (hne : observations ≠ [])
    (hfail : (∃ e, o i = .error e) ∨
             (∃ r e, o i = .ok r ∧ parseJsonFromResponse jl r PyType.dict = .error e)) :
    generateActivityCards o jl fmt i observations =
      .ok ([fallbackActivityCard fmt observations], i + 1) := by
  rcases hfail with ⟨e, he⟩ | ⟨r, e, hr, hp⟩
  · unfold generateActivityCards
    rw [he]
    cases observations with
    | nil => exact absurd rfl hne
    | cons a l => rfl
  · unfold generateActivityCards
    rw [hr]
    dsimp only
    rw [hp]
    cases observations with
    | nil => exact absurd rfl hne
    | cons a l => rfl

/-- Witness for C4 at a concrete chunk and raising client. -/
theorem generateActivityCards_failure_fallback_inst :
    generateActivityCards (fun _ => .error "TransportError") (fun _ => none)
        (fun _ => "9:00 AM") 0
        [{ start_ts := 0, end_ts := 60, observation := Json.str "coding",
           metadata := [] }] =
      .ok ([fallbackActivityCard (fun _ => "9:00 AM")
        [{ start_ts := 0, end_ts := 60, observation := Json.str "coding",
           metadata := [] }]], 0 + 1) :=
  generateActivityCards_failure_fallback _ _ _ _ _ (List.cons_ne_nil _ _)
    (Or.inl ⟨"TransportError", rfl⟩)

/-- Claim C5: for cards that pass the lexical veto, a raising merge-decision
call or a response that fails to parse as a JSON object makes
`should_merge_cards` return `False` (after exactly one call), and the
consolidation driver then appends the new card unchanged as the new
most-recent card. -/
theorem mergeDecision_failure_no_merge (o : Oracle) (jl : JLoads) (i : Nat)
    (p n : ActivityCard) (a b c d : String) (cards : List ActivityCard)
    (hpt : p.title = Json.str a) (hps : p.summary = Json.str b)
    (hnt : n.title = Json.str c) (hns : n.summary = Json.str d)
    (hnokey : distractionKeywords.any
      (fun k => strContains (pyLower (a ++ b ++ c ++ d)) k) = false)
    (hfail : (∃ e, o i = .error e) ∨
             (∃ r e, o i = .ok r ∧ parseJsonFromResponse jl r PyType.dict = .error e)) :
    shouldMergeCards o jl i p n = .ok (Json.bool false, i + 1) ∧
    commitNewCard o jl i cards (some p) n =
      .ok { postCards := cards ++ [n], postPrev := some n, idx := i + 1,
            mergedWith := none, fusedAppendedAsNew := false } := by
  have h1 : shouldMergeCards o jl i p n = .ok (Json.bool false, i + 1) := by
    unfold shouldMergeCards combinedText
    rw [hpt, hps, hnt, hns]
    dsimp only
    rw [hnokey]
    rcases hfail with ⟨e, he⟩ | ⟨r, e, hr, hp⟩
    · simp [he]
    · simp [hr, hp]
  refine ⟨h1, ?_⟩
  unfold commitNewCard
  dsimp only
  rw [h1]
  rfl

/-- Witness for C5: keyword-free cards, raising client, concrete timeline. -/
theorem mergeDecision_failure_no_merge_inst :
    shouldMergeCards (fun _ => .error "TransportError") (fun _ => none) 3
      { start_time := Json.str "9:00 AM", end_time := Json.str "9:15 AM",
        category := Json.str "Work", title := Json.str "Coding",
        summary := Json.str "Worked on the app." }
      { start_time := Json.str "9:15 AM", end_time := Json.str "9:30 AM",
        category := Json.str "Work", title := Json.str "More coding",
        summary := Json.str "Kept going." } = .ok (Json.bool false, 3 + 1) :=
  (mergeDecision_failure_no_merge (fun _ => .error "TransportError") (fun _ => none) 3
    _ _ "Coding" "Worked on the app." "More coding" "Kept going." []
    rfl rfl rfl rfl (by decide) (Or.inl ⟨"TransportError", rfl⟩)).1

/- ### Concrete client behaviours for the C6/C7 counterexamples.
The responses are genuine JSON texts and the loads functions return exactly
their JSON parse (and fail on everything else, as `json.loads` does on
non-JSON text). -/

def c6RespText : String :=
  "[\x7b\"startTime\": \"9:99 PM\", \"endTime\": \"9:99 PM\", \"category\": \"Entertainment\", \"title\": \"T\", \"summary\": \"S\"\x7d]"

def c6Value : Json :=
  Json.arr [Json.obj [("startTime", Json.str "9:99 PM"), ("endTime", Json.str "9:99 PM"),
    ("category", Json.str "Entertainment"), ("title", Json.str "T"),
    ("summary", Json.str "S")]]

def c6Loads : JLoads := fun s => if s = c6RespText then some c6Value else none

def c7Loads : JLoads := fun s => if s = "[]" then some (Json.arr []) else none

/-- Claim C6 counterexample.  First conjunct: on the context-aware generator's
success path the emitted card's `start_time` is the response-supplied string
"9:99 PM", not the formatted earliest observation start (the single chunk
observation starts at 100, formatted "100" under the concrete clock format).
Second conjunct: the no-context generator takes `end_time` from the *last*
observation (end 20), not the *latest* end (100), on a stream sorted by
start. -/
theorem cardGenerator_bounds_cex :
    (generateActivityCardsWithContext (fun _ => .ok c6RespText) c6Loads
        (fun t => toString t) 0
        [{ start_ts := 100, end_ts := 200, observation := Json.str "coding",
           metadata := [] }] [] [] =
      .ok ([{ start_time := Json.str "9:99 PM", end_time := Json.str "9:99 PM",
              category := Json.str "Entertainment", title := Json.str "T",
              summary := Json.str "S" }], 0 + 1) ∧
     Json.str "9:99 PM" ≠ Json.str ((fun (t : Int) => toString t) 100)) ∧
    (generateActivityCards (fun _ => .error "TransportError") (fun _ => none)
        (fun t => toString t) 0
        [{ start_ts := 0, end_ts := 100, observation := Json.str "a", metadata := [] },
         { start_ts := 10, end_ts := 20, observation := Json.str "b", metadata := [] }] =
      .ok ([{ start_time := Json.str ((fun (t : Int) => toString t) 0),
              end_time := Json.str ((fun (t : Int) => toString t) 20),
              category := Json.str "Work", title := Json.str "Activity Session",
              summary := Json.str "User engaged in various activities." }], 0 + 1) ∧
     Json.str ((fun (t : Int) => toString t) 20) ≠
       Json.str ((fun (t : Int) => toString t) 100)) := by
  refine ⟨⟨rfl, ?_⟩, ⟨rfl, ?_⟩⟩
  · intro h
    injection h with h2
    exact absurd h2 (by decide)
  · intro h
    injection h with h2
    exact absurd h2 (by decide)

/-- Claim C6 (amended): the no-context generator emits, for every client
behaviour and non-empty chunk, exactly one card whose bounds are the formatted
start of the chunk's *first* observation and the formatted end of its *last*
observation, with category "Work"; the context-aware generator guarantees
those bounds only on its fallback path — on success it copies the
response-supplied cards (including their time bounds) verbatim.  Context input
never reaches the fallback bounds. -/
theorem cardGenerator_bounds_characterization (o : Oracle) (jl : JLoads)
    (fmt : Int → String) (i : Nat) (observations ctxObs : List Observation)
    (ctxCards : List ActivityCard) (hne : observations ≠ []) :
    (∃ t sm,
       generateActivityCards o jl fmt i observations =
         .ok ([{ start_time :=
                   Json.str (fmt ((observations.head?.getD dummyObservation).start_ts)),
                 end_time :=
                   Json.str (fmt ((observations.getLast?.getD dummyObservation).end_ts)),
                 category := Json.str "Work", title := t, summary := sm }], i + 1)) ∧
    (∀ e, o i = .error e →
       generateActivityCardsWithContext o jl fmt i observations ctxObs ctxCards =
         .ok ([fallbackActivityCard fmt observations], i + 1)) ∧
    (∀ r cardsData items cards, o i = .ok r →
       parseJsonFromResponse jl r PyType.list = .ok cardsData →
       pyIterList cardsData = .ok items →
       exceptMapList buildCardFromData items = .ok cards →
       generateActivityCardsWithContext o jl fmt i observations ctxObs ctxCards =
         .ok (cards, i + 1)) := by
  refine ⟨?_, ?_, ?_⟩
  · unfold generateActivityCards
    cases observations with
    | nil => exact absurd rfl hne
    | cons ob0 rest =>
      cases o i with
      | error e => exact ⟨Json.str "Activity Session",
          Json.str "User engaged in various activities.", rfl⟩
      | ok r =>
        dsimp only
        cases parseJsonFromResponse jl r PyType.dict with
        | error e => exact ⟨Json.str "Activity Session",
            Json.str "User engaged in various activities.", rfl⟩
        | ok result =>
          dsimp only
          cases pyDictGet result "title" (Json.str "Activity Session") with
          | error e => exact ⟨Json.str "Activity Session",
              Json.str "User engaged in various activities.", rfl⟩
          | ok t =>
            dsimp only
            cases pyDictGet result "summary"
                (Json.str "User engaged in various activities.") with
            | error e => exact ⟨Json.str "Activity Session",
                Json.str "User engaged in various activities.", rfl⟩
            | ok sm => exact ⟨t, sm, rfl⟩
  · intro e he
    unfold generateActivityCardsWithContext
    rw [he]
    cases observations with
    | nil => exact absurd rfl hne
    | cons ob0 rest => rfl
  · intro r cardsData items cards hr hp hit hbuild
    unfold generateActivityCardsWithContext
    rw [hr]
    dsimp only
    rw [hp]
    dsimp only
    rw [hit]
    dsimp only
    rw [hbuild]

/-- Witness for the amended C6 on a concrete chunk. -/
theorem cardGenerator_bounds_characterization_inst :
    ∃ t sm,
      generateActivityCards (fun _ => .error "down") (fun _ => none) (fun _ => "F") 0
          [{ start_ts := 5, end_ts := 9, observation := Json.null, metadata := [] }] =
        .ok ([{ start_time := Json.str "F", end_time := Json.str "F",
                category := Json.str "Work", title := t, summary := sm }], 0 + 1) :=
  (cardGenerator_bounds_characterization (fun _ => .error "down") (fun _ => none)
    (fun _ => "F") 0
    [{ start_ts := 5, end_ts := 9, observation := Json.null, metadata := [] }] [] []
    (List.cons_ne_nil _ _)).1

/-- Claim C7 counterexample: a batch with two distinct captions whose merge
response is the (valid JSON) empty list makes `_merge_frame_descriptions`
return the empty Observation list on its success path — neither non-empty nor
covering the batch span. -/
theorem segmentMerger_contract_cex :
    mergeFrameDescriptions (fun _ => .ok "[]") c7Loads 0
        [(0, "caption one"), (30, "caption two")] 1000 60 = ([], 0 + 1) ∧
    "caption one" ≠ "caption two" :=
  ⟨rfl, by decide⟩

theorem mergeFallback_props (t0 d : Int) (e : String) :
    (mergeFallback t0 d e).length = 1 ∧
    ∀ ob ∈ mergeFallback t0 d e, ob.start_ts = t0 ∧ ob.end_ts = t0 + d := by
  refine ⟨rfl, ?_⟩
  intro ob hob
  simp [mergeFallback] at hob
  simp [hob]

/-- Claim C7 (amended): every run of the Segment Merger advances the call
index by one and returns either (fallback path) the single Observation
spanning `[t0, t0 + d]` exactly, or (success path) one Observation per parsed
response segment, each converted by offsetting the response's parsed
timestamps by `t0` — with no local enforcement of non-emptiness, ordering,
disjointness, or coverage on the success path. -/
theorem mergeFrameDescriptions_characterization (o : Oracle) (jl : JLoads) (i : Nat)
    (fds : List (Int × String)) (t0 d : Int) :
    ∀ res i2, mergeFrameDescriptions o jl i fds t0 d = (res, i2) →
      i2 = i + 1 ∧
      ((∃ e, res = mergeFallback t0 d e ∧ res.length = 1 ∧
          ∀ ob ∈ res, ob.start_ts = t0 ∧ ob.end_ts = t0 + d) ∨
       (∃ r segsJson segs, o i = .ok r ∧
          parseJsonFromResponse jl r PyType.list = .ok segsJson ∧
          pyIterList segsJson = .ok segs ∧
          List.Forall₂ (fun seg ob => convertSegment t0 seg = .ok ob) segs res)) := by
  intro res i2 h
  unfold mergeFrameDescriptions at h
  cases ho : o i with
  | error e =>
    rw [ho] at h
    cases h
    exact ⟨rfl, Or.inl ⟨e, rfl, (mergeFallback_props t0 d e).1,
      (mergeFallback_props t0 d e).2⟩⟩
  | ok r =>
    rw [ho] at h
    dsimp only at h
    cases hp : parseJsonFromResponse jl r PyType.list with
    | error e =>
      rw [hp] at h
      cases h
      exact ⟨rfl, Or.inl ⟨e, rfl, (mergeFallback_props t0 d e).1,
        (mergeFallback_props t0 d e).2⟩⟩
    | ok segsJson =>
      rw [hp] at h
      dsimp only at h
      cases hit : pyIterList segsJson with
      | error e =>
        rw [hit] at h
        cases h
        exact ⟨rfl, Or.inl ⟨e, rfl, (mergeFallback_props t0 d e).1,
          (mergeFallback_props t0 d e).2⟩⟩
      | ok segs =>
        rw [hit] at h
        dsimp only at h
        cases hm : exceptMapList (convertSegment t0) segs with
        | error e =>
          rw [hm] at h
          cases h
          exact ⟨rfl, Or.inl ⟨e, rfl, (mergeFallback_props t0 d e).1,
            (mergeFallback_props t0 d e).2⟩⟩
        | ok observations =>
          rw [hm] at h
          injection h with h1 h2
          subst h1
          subst h2
          exact ⟨rfl, Or.inr ⟨r, segsJson, segs, rfl, hp, hit,
            exceptMapList_ok_forall2 (convertSegment t0) segs observations hm⟩⟩

/-- Witness for the amended C7 on a concrete failing run. -/
theorem mergeFrameDescriptions_characterization_inst :
    (0 : Nat) + 1 = 0 + 1 ∧
    ((∃ e, mergeFallback 1000 60 e = mergeFallback 1000 60 e ∧
        (mergeFallback 1000 60 e).length = 1 ∧
        ∀ ob ∈ mergeFallback 1000 60 e, ob.start_ts = 1000 ∧ ob.end_ts = 1000 + 60) ∨
     True) := by
  have h := mergeFrameDescriptions_characterization (fun _ => .error "down")
    (fun _ => none) 0 [(0, "caption a")] 1000 60
    (mergeFallback 1000 60 "down") (0 + 1) rfl
  refine ⟨h.1, ?_⟩
  rcases h.2 with ⟨e, he, hlen, hall⟩ | hsucc
  · exact Or.inl ⟨e, rfl, he ▸ hlen, by rw [← he]; exact hall⟩
  · exact Or.inr trivial

/- ### Loop lemmas for the chunk scheduler and consolidation driver -/

theorem getLast?_append_one {α : Type} (l : List α) (a : α) :
    (l ++ [a]).getLast? = some a := by simp

theorem iterBody_selection (o : Oracle) (jl : JLoads) (fmt : Int → String)
    (allObs : List Observation) (cs : Int) (s : LoopState) (rec : IterRecord)
    (s2 : LoopState) (h : iterBody o jl fmt allObs cs s = .ok (rec, s2)) :
    rec.window = cs ∧
    rec.selected = allObs.filter
      (fun ob => decide (ob.start_ts < cs + 15 * 60) && decide (ob.end_ts > cs)) ∧
    (rec.selected = [] → rec.producedCard = false ∧ rec.postCards = rec.preCards) := by
  unfold iterBody at h
  dsimp only at h
  by_cases hemp : (allObs.filter
      (fun ob => decide (ob.start_ts < cs + 15 * 60) && decide (ob.end_ts > cs))).isEmpty
  · rw [if_pos hemp] at h
    injection h with h1
    injection h1 with hrec hs2
    subst hrec
    exact ⟨rfl, rfl, fun _ => ⟨rfl, rfl⟩⟩
  · rw [if_neg hemp] at h
    have hne : (allObs.filter
        (fun ob => decide (ob.start_ts < cs + 15 * 60) && decide (ob.end_ts > cs))) ≠ [] := by
      intro hz
      rw [hz] at hemp
      exact hemp rfl
    cases hg : generateActivityCards o jl fmt s.idx (allObs.filter
        (fun ob => decide (ob.start_ts < cs + 15 * 60) && decide (ob.end_ts > cs))) with
    | error e => rw [hg] at h; cases h
    | ok pr =>
      rw [hg] at h
      obtain ⟨cards, i1⟩ := pr
      dsimp only at h
      cases cards with
      | nil =>
        injection h with h1
        injection h1 with hrec hs2
        subst hrec
        exact ⟨rfl, rfl, fun hz => absurd hz hne⟩
      | cons newCard restCards =>
        dsimp only at h
        cases hc : commitNewCard o jl i1 s.finalCards s.previous newCard with
        | error e => rw [hc] at h; cases h
        | ok cr =>
          rw [hc] at h
          injection h with h1
          injection h1 with hrec hs2
          subst hrec
          exact ⟨rfl, rfl, fun hz => absurd hz hne⟩

/-- Claim C8: every completed iteration of the `process_with_merging` chunk
loop selects exactly the observations intersecting its 15-minute window
(`start_ts < chunk_end` and `end_ts > chunk_start`), and an iteration whose
selection is empty produces no card and leaves the timeline unchanged — the
cursor just advances to the next window. -/
theorem chunkLoop_selection_exact (o : Oracle) (jl : JLoads) (fmt : Int → String)
    (allObs : List Observation) (endTime : Int) :
    ∀ (fuel : Nat) (cs : Int) (s : LoopState) (rec : IterRecord),
      rec ∈ (runChunksN o jl fmt allObs endTime fuel cs s).1 →
      rec.selected = allObs.filter
        (fun ob => decide (ob.start_ts < rec.window + 15 * 60) &&
                   decide (ob.end_ts > rec.window)) ∧
      (rec.selected = [] → rec.producedCard = false ∧ rec.postCards = rec.preCards) := by
  intro fuel
  induction fuel with
  | zero => intro cs s rec hmem; simp [runChunksN] at hmem
  | succ f ih =>
    intro cs s rec hmem
    rw [runChunksN] at hmem
    by_cases hlt : cs < endTime
    · rw [if_pos hlt] at hmem
      cases hib : iterBody o jl fmt allObs cs s with
      | error e => rw [hib] at hmem; simp at hmem
      | ok pr =>
        rw [hib] at hmem
        obtain ⟨rec1, s2⟩ := pr
        dsimp only at hmem
        rcases List.mem_cons.mp hmem with rfl | hmem2
        · obtain ⟨hw, hsel, himp⟩ := iterBody_selection o jl fmt allObs cs s rec s2 hib
          rw [hw]
          exact ⟨hsel, himp⟩
        · exact ih (cs + 15 * 60) s2 rec hmem2
    · rw [if_neg hlt] at hmem
      simp at hmem

/-- Witness data for the loop claims: a one-observation stream processed with
a raising client, producing a single-iteration trace. -/
def wObs : Observation :=
  { start_ts := 0, end_ts := 60, observation := Json.str "coding", metadata := [] }

def wCard : ActivityCard := fallbackActivityCard (fun _ => "T") [wObs]

def wRec : IterRecord :=
  { window := 0, selected := [wObs], producedCard := true, preCards := [],
    postCards := [wCard], postPrev := some wCard, mergedWith := none,
    fusedAppendedAsNew := false }

def wTrace : List IterRecord :=
  (runChunksN (fun _ => .error "down") (fun _ => none) (fun _ => "T") [wObs] 60 1 0
    { finalCards := [], previous := none, idx := 0 }).1

/-- Witness for C8 on the concrete one-iteration run. -/
theorem chunkLoop_selection_exact_inst :
    wRec ∈ wTrace ∧ wRec.selected = [wObs] := by
  have hmem : wRec ∈ wTrace := by
    have h : wTrace = [wRec] := rfl
    rw [h]
    exact List.mem_singleton.mpr rfl
  refine ⟨hmem, ?_⟩
  have h2 := chunkLoop_selection_exact (fun _ => .error "down") (fun _ => none)
    (fun _ => "T") [wObs] 60 1 0 { finalCards := [], previous := none, idx := 0 }
    wRec hmem
  rw [h2.1]
  rfl

/-- Loop invariant of `process_with_merging`: whenever a previous card exists
it is (structurally) the last element of `final_cards`, and before the first
card the timeline is empty. -/
def stateInv (s : LoopState) : Prop :=
  (s.previous = none → s.finalCards = []) ∧
  (∀ c, s.previous = some c → s.finalCards.getLast? = some c)

theorem commitNewCard_ok_props (o : Oracle) (jl : JLoads) (i : Nat)
    (cards : List ActivityCard) (prev : Option ActivityCard) (n1 : ActivityCard)
    (cr : CommitResult)
    (hprev : ∀ c, prev = some c → cards.getLast? = some c)
    (h : commitNewCard o jl i cards prev n1 = .ok cr) :
    cr.fusedAppendedAsNew = false ∧
    (∃ c, cr.postPrev = some c ∧ cr.postCards.getLast? = some c) ∧
    (∀ pc nc mc, cr.mergedWith = some (pc, nc, mc) →
       cr.postCards = cards.dropLast ++ [mc] ∧ cards.getLast? = some pc) := by
  unfold commitNewCard at h
  cases prev with
  | none =>
    injection h with h1
    subst h1
    refine ⟨rfl, ⟨n1, rfl, getLast?_append_one cards n1⟩, ?_⟩
    intro pc nc mc hmw
    cases hmw
  | some p =>
    dsimp only at h
    cases hsm : shouldMergeCards o jl i p n1 with
    | error e => rw [hsm] at h; cases h
    | ok pr =>
      rw [hsm] at h
      obtain ⟨decision, i1⟩ := pr
      dsimp only at h
      by_cases htr : pyTruthy decision = true
      · rw [if_pos htr] at h
        have hlast : cards.getLast? = some p := hprev p rfl
        rw [hlast] at h
        dsimp only at h
        rw [cardBeq_refl p] at h
        rw [if_pos rfl] at h
        injection h with h1
        subst h1
        refine ⟨rfl, ⟨(mergeTwoCards o jl i1 p n1).1, rfl,
          getLast?_append_one _ _⟩, ?_⟩
        intro pc nc mc hmw
        injection hmw with hmw1
        injection hmw1 with hpc hmw2
        injection hmw2 with hnc hmc
        subst hpc
        subst hmc
        exact ⟨rfl, hlast⟩
      · rw [if_neg htr] at h
        injection h with h1
        subst h1
        refine ⟨rfl, ⟨n1, rfl, getLast?_append_one cards n1⟩, ?_⟩
        intro pc nc mc hmw
        cases hmw

theorem iterBody_inv_props (o : Oracle) (jl : JLoads) (fmt : Int → String)
    (allObs : List Observation) (cs : Int) (s : LoopState) (rec : IterRecord)
    (s2 : LoopState) (hinv : stateInv s)
    (h : iterBody o jl fmt allObs cs s = .ok (rec, s2)) :
    stateInv s2 ∧
    rec.preCards = s.finalCards ∧
    rec.fusedAppendedAsNew = false ∧
    (rec.postPrev = none → rec.postCards = []) ∧
    (∀ c, rec.postPrev = some c → rec.postCards.getLast? = some c) ∧
    (∀ pc nc mc, rec.mergedWith = some (pc, nc, mc) →
       rec.postCards = rec.preCards.dropLast ++ [mc] ∧
       rec.preCards.getLast? = some pc) := by
  unfold iterBody at h
  dsimp only at h
  by_cases hemp : (allObs.filter
      (fun ob => decide (ob.start_ts < cs + 15 * 60) && decide (ob.end_ts > cs))).isEmpty
  · rw [if_pos hemp] at h
    injection h with h1
    injection h1 with hrec hs2
    subst hrec
    subst hs2
    refine ⟨hinv, rfl, rfl, hinv.1, hinv.2, ?_⟩
    intro pc nc mc hmw
    cases hmw
  · rw [if_neg hemp] at h
    cases hg : generateActivityCards o jl fmt s.idx (allObs.filter
        (fun ob => decide (ob.start_ts < cs + 15 * 60) && decide (ob.end_ts > cs))) with
    | error e => rw [hg] at h; cases h
    | ok pr =>
      rw [hg] at h
      obtain ⟨cards, i1⟩ := pr
      dsimp only at h
      cases cards with
      | nil =>
        injection h with h1
        injection h1 with hrec hs2
        subst hrec
        subst hs2
        refine ⟨⟨hinv.1, hinv.2⟩, rfl, rfl, hinv.1, hinv.2, ?_⟩
        intro pc nc mc hmw
        cases hmw
      | cons newCard restCards =>
        dsimp only at h
        cases hc : commitNewCard o jl i1 s.finalCards s.previous newCard with
        | error e => rw [hc] at h; cases h
        | ok cr =>
          rw [hc] at h
          injection h with h1
          injection h1 with hrec hs2
          subst hrec
          subst hs2
          obtain ⟨hflag, ⟨c, hc1, hc2⟩, hmprop⟩ :=
            commitNewCard_ok_props o jl i1 s.finalCards s.previous newCard cr
              hinv.2 hc
          refine ⟨⟨?_, ?_⟩, rfl, hflag, ?_, ?_, hmprop⟩
          · intro hz
            rw [hc1] at hz
            cases hz
          · intro c2 hsome
            rw [hc1] at hsome
            injection hsome with he
            subst he
            exact hc2
          · intro hz
            rw [hc1] at hz
            cases hz
          · intro c2 hsome
            rw [hc1] at hsome
            injection hsome with he
            subst he
            exact hc2

theorem runChunks_trace_inv (o : Oracle) (jl : JLoads) (fmt : Int → String)
    (allObs : List Observation) (endTime : Int) :
    ∀ (fuel : Nat) (cs : Int) (s : LoopState), stateInv s →
      ∀ rec ∈ (runChunksN o jl fmt allObs endTime fuel cs s).1,
        rec.fusedAppendedAsNew = false ∧
        (rec.postPrev = none → rec.postCards = []) ∧
        (∀ c, rec.postPrev = some c → rec.postCards.getLast? = some c) ∧
        (∀ pc nc mc, rec.mergedWith = some (pc, nc, mc) →
           rec.postCards = rec.preCards.dropLast ++ [mc] ∧
           rec.preCards.getLast? = some pc) := by
  intro fuel
  induction fuel with
  | zero => intro cs s hinv rec hmem; simp [runChunksN] at hmem
  | succ f ih =>
    intro cs s hinv rec hmem
    rw [runChunksN] at hmem
    by_cases hlt : cs < endTime
    · rw [if_pos hlt] at hmem
      cases hib : iterBody o jl fmt allObs cs s with
      | error e => rw [hib] at hmem; simp at hmem
      | ok pr =>
        rw [hib] at hmem
        obtain ⟨rec1, s2⟩ := pr
        dsimp only at hmem
        rcases List.mem_cons.mp hmem with rfl | hmem2
        · obtain ⟨_, _, hflag, hnone, hsome, hmerge⟩ :=
            iterBody_inv_props o jl fmt allObs cs s rec s2 hinv hib
          exact ⟨hflag, hnone, hsome, hmerge⟩
        · obtain ⟨hinv2, _, _, _, _, _⟩ :=
            iterBody_inv_props o jl fmt allObs cs s rec1 s2 hinv hib
          exact ih (cs + 15 * 60) s2 hinv2 rec hmem2
    · rw [if_neg hlt] at hmem
      simp at hmem

/-- Claim C10: starting from the initial loop state of `process_with_merging`
(empty timeline, no previous card), every completed iteration keeps
`previous_card` equal to the last element of `final_cards`; consequently a
positive merge decision always overwrites the most recently appended card in
place — the `else` branch that would append the fused card as an extra element
is never taken (`fusedAppendedAsNew = false`), and after a fusion of P and N
the timeline slot that held P holds the fused card instead
(`postCards = preCards.dropLast ++ [fused]`). -/
theorem chunkLoop_previous_invariant (o : Oracle) (jl : JLoads) (fmt : Int → String)
    (allObs : List Observation) (endTime : Int) (fuel : Nat) (cs : Int) (i0 : Nat)
    (rec : IterRecord)
    (hmem : rec ∈ (runChunksN o jl fmt allObs endTime fuel cs
        { finalCards := [], previous := none, idx := i0 }).1) :
    rec.fusedAppendedAsNew = false ∧
    (rec.postPrev = none → rec.postCards = []) ∧
    (∀ c, rec.postPrev = some c → rec.postCards.getLast? = some c) ∧
    (∀ pc nc mc, rec.mergedWith = some (pc, nc, mc) →
       rec.postCards = rec.preCards.dropLast ++ [mc] ∧
       rec.preCards.getLast? = some pc) :=
  runChunks_trace_inv o jl fmt allObs endTime fuel cs
    { finalCards := [], previous := none, idx := i0 }
    ⟨fun _ => rfl, fun c hc => by cases hc⟩ rec hmem

/-- Witness for C10 on the concrete one-iteration run. -/
theorem chunkLoop_previous_invariant_inst :
    wRec ∈ wTrace ∧ wRec.fusedAppendedAsNew = false := by
  have hmem : wRec ∈ wTrace := by
    have h : wTrace = [wRec] := rfl
    rw [h]
    exact List.mem_singleton.mpr rfl
  exact ⟨hmem, (chunkLoop_previous_invariant (fun _ => .error "down") (fun _ => none)
    (fun _ => "T") [wObs] 60 1 0 0 wRec hmem).1⟩
